import Mathlib

/-!
Shallow embedding of the payment-reconciliation workflow of the
alx_travel_app repository (Django + Chapa gateway + Celery notifier).

Source files embedded:
  - alx_travel_app/listings/models.py   (Listing/Booking/Payment models)
  - alx_travel_app/listings/views.py    (initiate_payment, verify_payment)
  - alx_travel_app/listings/tasks.py    (send_booking_confirmation_email)

Decimal money amounts are embedded as integers (exact values: nightly price
times an integer number of nights never needs rounding); dates are embedded
as integer day numbers, so `(check_out - check_in).days` is plain integer
subtraction.  Python truthiness of an optional string / optional number is
made explicit (`optTruthyStr`, `optTruthyInt`).  The database is a pair of
lists of rows; Django's OneToOneField / unique constraints are enforced by
`DB.createPayment`, which returns an `IntegrityError` exactly when the
constrained insert would fail.  The external gateway is an oracle argument
(`GwCall`): a parsed JSON response, a `requests` transport exception, or any
other exception, matching the three `except` paths of the views.
-/

namespace AlxTravel

/-- Booking.STATUS_CHOICES from models.py. -/
inductive BookingStatus
  | pending
  | confirmed
  | cancelled
  | completed
deriving DecidableEq, Repr

/-- Payment.STATUS_CHOICES from models.py. -/
inductive PaymentStatus
  | pending
  | processing
  | completed
  | failed
  | cancelled
deriving DecidableEq, Repr

/-- Python truthiness of an optional numeric field (None and 0 are falsy). -/
def optTruthyInt : Option Int → Bool
  | none => false
  | some n => n != 0

/-- Python truthiness of an optional string field (None and "" are falsy). -/
def optTruthyStr : Option String → Bool
  | none => false
  | some s => s != ""

/-- Booking row (models.py `Booking`), with the listing's nightly price and
the owning user's email denormalised onto the row (they are reached through
foreign keys in the source and never mutated by this workflow). -/
structure Booking where
  booking_id : Nat
  user_id : Nat
  user_email : String
  listing_price : Int
  check_in : Int
  check_out : Int
  number_of_guests : Nat
  total_price : Option Int
  status : BookingStatus
deriving DecidableEq, Repr

/-- Booking.calculate_total_price: sets total_price to nightly price times
nights when nights > 0, otherwise leaves the row unchanged (the Python
method then returns Decimal 0.00, a value its only internal caller,
`Booking.save`, discards). Date fields are non-null, so the
`if self.check_out and self.check_in` guard is always true. -/
def Booking.calculate_total_price (b : Booking) : Booking :=
  let nights := b.check_out - b.check_in
  if nights > 0 then { b with total_price := some (b.listing_price * nights) } else b

/-- Booking.save override: recompute total_price only when it is falsy
(None or 0), i.e. `if not self.total_price or self.total_price == 0`. -/
def Booking.save (b : Booking) : Booking :=
  if optTruthyInt b.total_price then b else b.calculate_total_price

/-- Parsed `data` object of a Chapa initialize-transaction response. -/
structure InitData where
  checkout_url : Option String
  tx_ref : Option String
deriving DecidableEq, Repr

/-- Parsed JSON envelope of a Chapa initialize-transaction response,
together with the HTTP status code.  `none` fields model absent keys. -/
structure InitEnvelope where
  http_code : Nat
  status : Option String
  message : Option String
  data : Option InitData
deriving DecidableEq, Repr

/-- Parsed `data` object of a Chapa verify-transaction response. -/
structure VerifyData where
  status : Option String
  reference : Option String
  method : Option String
deriving DecidableEq, Repr

/-- Parsed JSON envelope of a Chapa verify-transaction response. -/
structure VerifyEnvelope where
  http_code : Nat
  status : Option String
  message : Option String
  data : Option VerifyData
deriving DecidableEq, Repr

/-- Value stored in Payment.raw_response (a JSONField holding whichever
gateway response body was last persisted). -/
inductive RawResponse
  | init (e : InitEnvelope)
  | verif (e : VerifyEnvelope)
deriving DecidableEq, Repr

/-- Payment row (models.py `Payment`). -/
structure Payment where
  payment_id : Nat
  booking_id : Nat
  transaction_id : Option String
  reference : String
  amount : Option Int
  currency : String
  status : PaymentStatus
  payment_method : Option String
  chapa_reference : Option String
  checkout_url : Option String
  completed_at : Option Int
  error_message : Option String
  raw_response : Option RawResponse
deriving DecidableEq, Repr

/-- The persisted state: the Booking and Payment tables. -/
structure DB where
  bookings : List Booking
  payments : List Payment
deriving DecidableEq, Repr

/-- Booking.objects.get(booking_id=..., user=...) as used by initiate_payment. -/
def DB.findBooking (db : DB) (bid uid : Nat) : Option Booking :=
  db.bookings.find? (fun b => b.booking_id == bid && b.user_id == uid)

/-- Resolution of a `payment.booking` / `booking_id` foreign key. -/
def DB.findBookingById (db : DB) (bid : Nat) : Option Booking :=
  db.bookings.find? (fun b => b.booking_id == bid)

/-- `hasattr(booking, 'payment')` / `booking.payment`: the reverse side of the
OneToOneField, i.e. the Payment row pointing at this booking, if any. -/
def DB.paymentFor (db : DB) (bid : Nat) : Option Payment :=
  db.payments.find? (fun p => p.booking_id == bid)

/-- Payment.objects.get(reference=...). -/
def DB.findPaymentByRef (db : DB) (ref : String) : Option Payment :=
  db.payments.find? (fun p => p.reference == ref)

/-- Persisting `booking.save()` on an already-inserted row: replace the row
with the same booking_id. -/
def DB.updateBooking (db : DB) (b : Booking) : DB :=
  { db with bookings := db.bookings.map (fun x => if x.booking_id == b.booking_id then b else x) }

/-- Persisting `payment.save()` on an already-inserted row: replace the row
with the same payment_id. -/
def DB.updatePayment (db : DB) (p : Payment) : DB :=
  { db with payments := db.payments.map (fun x => if x.payment_id == p.payment_id then p else x) }

/-- Payment.objects.create(...): the insert fails with an IntegrityError when
it would violate the OneToOneField on booking (at most one Payment per
Booking) or the unique constraints on reference / payment_id. -/
def DB.createPayment (db : DB) (p : Payment) : Except String DB :=
  if db.payments.any
      (fun q => q.booking_id == p.booking_id || q.reference == p.reference ||
                q.payment_id == p.payment_id) then
    .error "IntegrityError"
  else
    .ok { db with payments := db.payments ++ [p] }

/-- Payment.mark_as_failed(error_message): set status to failed, persist the
error message only when it is truthy, save the payment, then set the booking
status to cancelled and save the booking (which runs the Booking.save
override).  Returns the saved payment together with the new state. -/
def markAsFailed (db : DB) (p : Payment) (em : Option String) : Payment × DB :=
  let p1 := { p with status := PaymentStatus.failed,
                     error_message := if optTruthyStr em then em else p.error_message }
  let db1 := db.updatePayment p1
  match db1.findBookingById p.booking_id with
  | some b => (p1, db1.updateBooking (Booking.save { b with status := BookingStatus.cancelled }))
  | none => (p1, db1)

/-- Payment.mark_as_completed(transaction_id): set status to completed,
record the external transaction id only when it is truthy, stamp
completed_at with the current time, save the payment, then set the booking
status to confirmed and save the booking. -/
def markAsCompleted (db : DB) (p : Payment) (txid : Option String) (now : Int) :
    Payment × DB :=
  let p1 := { p with status := PaymentStatus.completed,
                     transaction_id := if optTruthyStr txid then txid else p.transaction_id,
                     completed_at := some now }
  let db1 := db.updatePayment p1
  match db1.findBookingById p.booking_id with
  | some b => (p1, db1.updateBooking (Booking.save { b with status := BookingStatus.confirmed }))
  | none => (p1, db1)

/-- Outcome of one call to the external gateway, as seen by the view's
try/except: a parsed response, a requests.exceptions.RequestException, or
any other exception (JSON decoding and the like). -/
inductive GwCall (α : Type)
  | resp (r : α)
  | requestError (msg : String)
  | otherError (msg : String)
deriving DecidableEq, Repr

/-- Validated body of an initiate_payment request (PaymentInitiateSerializer
fields; phone_number defaults to ""). -/
structure InitiateRequest where
  booking_id : Nat
  email : String
  first_name : String
  last_name : String
  phone_number : String
deriving DecidableEq, Repr

/-- HTTP response returned by initiate_payment, one constructor per return
statement of the view (the HTTP status code is in the constructor name). -/
inductive InitResult
  | notFound404 (msg : String)
  | conflict400 (msg : String)
  | ok200 (payment_id : Nat) (reference : String) (checkout_url : String)
          (amount : Option Int) (currency : String)
  | gatewayError400 (msg : String)
  | serverError500 (msg : String)
deriving DecidableEq, Repr

/-- The Payment row that initiate_payment creates before contacting the
gateway: status pending, amount copied from the booking, the generated
TRV- reference and a fresh payment_id (uuid4 values in the source). -/
def newPendingPayment (booking : Booking) (freshRef : String) (freshPid : Nat) : Payment :=
  { payment_id := freshPid
    booking_id := booking.booking_id
    transaction_id := none
    reference := freshRef
    amount := booking.total_price
    currency := "ETB"
    status := PaymentStatus.pending
    payment_method := none
    chapa_reference := none
    checkout_url := none
    completed_at := none
    error_message := none
    raw_response := none }

/-- Body of initiate_payment after the booking lookup and conflict check:
create the pending Payment row, call the gateway, and branch on the three
outcome classes. -/
def initiateCore (db : DB) (booking : Booking) (freshRef : String) (freshPid : Nat)
    (gw : GwCall InitEnvelope) : Except String (InitResult × DB) :=
  let payment : Payment := newPendingPayment booking freshRef freshPid
  match db.createPayment payment with
  | Except.error e => Except.error e
  | Except.ok db1 =>
  match gw with
  | GwCall.requestError e =>
      let msg := "Failed to connect to payment gateway: " ++ e
      let r := markAsFailed db1 payment (some msg)
      pure (InitResult.serverError500 msg, r.2)
  | GwCall.otherError e =>
      let msg := "Unexpected error: " ++ e
      let r := markAsFailed db1 payment (some msg)
      pure (InitResult.serverError500 "An unexpected error occurred", r.2)
  | GwCall.resp env =>
      if env.http_code = 200 ∧ env.status = some "success" then
        match env.data with
        | some d =>
          match d.checkout_url with
          | some url =>
            let p1 := { payment with
              checkout_url := some url
              chapa_reference := some (d.tx_ref.getD freshRef)
              status := PaymentStatus.processing
              raw_response := some (RawResponse.init env) }
            let db2 := db1.updatePayment p1
            pure (InitResult.ok200 p1.payment_id p1.reference url p1.amount p1.currency, db2)
          | none =>
            -- response_data['data']['checkout_url'] raises KeyError,
            -- caught by the generic `except Exception` handler
            let r := markAsFailed db1 payment (some "Unexpected error: KeyError")
            pure (InitResult.serverError500 "An unexpected error occurred", r.2)
        | none =>
          -- response_data['data'] raises KeyError, caught by `except Exception`
          let r := markAsFailed db1 payment (some "Unexpected error: KeyError")
          pure (InitResult.serverError500 "An unexpected error occurred", r.2)
      else
        let msg := env.message.getD "Payment initiation failed"
        let r := markAsFailed db1 payment (some msg)
        pure (InitResult.gatewayError400 msg, r.2)

/-- views.initiate_payment: look up the booking for the requesting user,
reject with a conflict error when an existing Payment is completed or
processing, otherwise create a Payment and call the gateway.  An
`Except.error` result is an exception the view does not catch (the
IntegrityError from the constrained insert). -/
def initiate_payment (db : DB) (userId : Nat) (req : InitiateRequest)
    (freshRef : String) (freshPid : Nat) (gw : GwCall InitEnvelope) :
    Except String (InitResult × DB) :=
  match db.findBooking req.booking_id userId with
  | none => Except.ok (InitResult.notFound404 "Booking not found", db)
  | some booking =>
    match db.paymentFor booking.booking_id with
    | some p =>
      if p.status = PaymentStatus.completed ∨ p.status = PaymentStatus.processing then
        Except.ok (InitResult.conflict400 "Payment already initiated or completed", db)
      else
        initiateCore db booking freshRef freshPid gw
    | none => initiateCore db booking freshRef freshPid gw

/-- Coarse status tag of a verify_payment response. -/
inductive VerifyTag
  | success
  | failed
  | processing
  | error
  | notFound
  | badRequest
deriving DecidableEq, Repr

/-- HTTP response returned by verify_payment: tag, HTTP status code, message,
and the serialized Payment when the view includes one. -/
structure VerifyResult where
  tag : VerifyTag
  http_code : Nat
  message : String
  body : Option Payment
deriving DecidableEq, Repr

/-- A job enqueued on the Celery queue by
send_booking_confirmation_email.delay(booking_id=..., user_email=...). -/
structure Job where
  booking_id : Nat
  user_email : String
deriving DecidableEq, Repr

/-- Full outcome of a verify_payment call: the HTTP response, the state
afterwards, the notification jobs enqueued during the call, and whether the
gateway was contacted at all. -/
structure VerifyOutcome where
  result : VerifyResult
  db : DB
  jobs : List Job
  gatewayCalled : Bool
deriving DecidableEq, Repr

/-- views.verify_payment: look up the Payment by reference; short-circuit
when it is already completed; otherwise call the gateway's verify endpoint
and branch on the transaction status inside a success envelope
(success / failed / anything else), or report gateway and transport errors
without touching the state. -/
def verify_payment (db : DB) (reference : String) (now : Int)
    (gw : GwCall VerifyEnvelope) : VerifyOutcome :=
  if reference = "" then
    ⟨⟨VerifyTag.badRequest, 400, "Payment reference is required", none⟩, db, [], false⟩
  else
    match db.findPaymentByRef reference with
    | none => ⟨⟨VerifyTag.notFound, 404, "Payment not found", none⟩, db, [], false⟩
    | some payment =>
      if payment.status = PaymentStatus.completed then
        ⟨⟨VerifyTag.success, 200, "Payment already verified and completed", some payment⟩,
          db, [], false⟩
      else
        match gw with
        | GwCall.requestError e =>
            ⟨⟨VerifyTag.error, 500, "Failed to verify payment: " ++ e, none⟩, db, [], true⟩
        | GwCall.otherError _ =>
            ⟨⟨VerifyTag.error, 500, "An unexpected error occurred", none⟩, db, [], true⟩
        | GwCall.resp env =>
          if env.http_code = 200 ∧ env.status = some "success" then
            let td := env.data.getD ⟨none, none, none⟩
            if td.status = some "success" then
              let r := markAsCompleted db payment td.reference now
              let p2 := { r.1 with payment_method := some (td.method.getD "")
                                   raw_response := some (RawResponse.verif env) }
              let db2 := r.2.updatePayment p2
              let jobs := match db2.findBookingById payment.booking_id with
                | some b => [⟨b.booking_id, b.user_email⟩]
                | none => []
              ⟨⟨VerifyTag.success, 200, "Payment verified and completed successfully", some p2⟩,
                db2, jobs, true⟩
            else if td.status = some "failed" then
              let r := markAsFailed db payment (some "Payment failed at gateway")
              let p2 := { r.1 with raw_response := some (RawResponse.verif env) }
              let db2 := r.2.updatePayment p2
              ⟨⟨VerifyTag.failed, 400, "Payment verification failed", some p2⟩, db2, [], true⟩
            else
              let p1 := { payment with status := PaymentStatus.processing
                                       raw_response := some (RawResponse.verif env) }
              let db1 := db.updatePayment p1
              ⟨⟨VerifyTag.processing, 200, "Payment is still being processed", some p1⟩,
                db1, [], true⟩
          else
            ⟨⟨VerifyTag.error, 400, env.message.getD "Verification failed", none⟩, db, [], true⟩

/-- max_retries=3 from the @shared_task decorator in tasks.py. -/
def max_retries : Nat := 3

/-- countdown=60 * (2 ** self.request.retries) from tasks.py. -/
def retry_countdown (retries : Nat) : Nat := 60 * 2 ^ retries

/-- Worker-side fate of the notification task.  `exhausted` is the
MaxRetriesExceededError raised inside the Celery worker once retries run
out; it never reaches the HTTP caller, whose response was already sent. -/
inductive TaskOutcome
  | success
  | exhausted
deriving DecidableEq, Repr

/-- Execution of send_booking_confirmation_email under Celery retry
semantics.  `fails n` says whether send_mail raises on the attempt made
with retry counter n.  On a failure the task re-raises via self.retry,
which re-enqueues with the exponential countdown while the retry counter
is below max_retries and otherwise aborts the task.  Returns the outcome
and the list of retry countdowns, in order.  The fuel argument is always
called with max_retries + 1 - retries remaining attempts available. -/
def runEmailTask (fails : Nat → Bool) : Nat → Nat → TaskOutcome × List Nat
  | _, 0 => (TaskOutcome.exhausted, [])
  | retries, fuel + 1 =>
    if fails retries then
      if retries < max_retries then
        let r := runEmailTask fails (retries + 1) fuel
        (r.1, retry_countdown retries :: r.2)
      else (TaskOutcome.exhausted, [])
    else (TaskOutcome.success, [])

/-- tasks.send_booking_confirmation_email: first attempt carries retry
counter 0 and up to max_retries further attempts may follow. -/
def send_booking_confirmation_email (fails : Nat → Bool) : TaskOutcome × List Nat :=
  runEmailTask fails 0 (max_retries + 1)

/-- Number of Payment rows whose foreign key points at the given booking. -/
def DB.paymentCountFor (db : DB) (bid : Nat) : Nat :=
  (db.payments.filter (fun p => p.booking_id == bid)).length

/-! Concrete fixtures used by the witness theorems. -/

/-- A booking of 3 nights at 200 per night, owned by user 10. -/
def wBooking : Booking :=
  ⟨1, 10, "u@x.com", 200, 0, 3, 2, some 600, BookingStatus.pending⟩

/-- A payment for wBooking already accepted by the gateway (processing). -/
def wPayment : Payment :=
  ⟨100, 1, none, "TRV-A", some 600, "ETB", PaymentStatus.processing,
   none, none, some "http://pay", none, none, none⟩

/-- A validated initiate request for wBooking. -/
def wRequest : InitiateRequest := ⟨1, "u@x.com", "J", "D", ""⟩

section ListLemmas

variable {α : Type}

/-- Replacing the row with a given key rewrites the keyed row and nothing
else, so the list of keys is unchanged. -/
lemma map_key_update (key : α → Nat) (l : List α) (p' : α) :
    (l.map (fun x => if key x == key p' then p' else x)).map key = l.map key := by
  induction l with
  | nil => rfl
  | cons x xs ih =>
    simp only [List.map_cons, ih, List.cons.injEq, and_true]
    by_cases h : key x = key p'
    · simp [h]
    · simp [h]

/-- After replacing the keyed row found by `find?` with a row of the same
key that still satisfies the predicate, `find?` returns the new row,
provided keys are distinct. -/
lemma find?_map_update (key : α → Nat) (pred : α → Bool) (l : List α) (p p' : α)
    (hnd : (l.map key).Nodup) (hf : l.find? pred = some p)
    (hk : key p' = key p) (hp' : pred p' = true) :
    (l.map (fun x => if key x == key p' then p' else x)).find? pred = some p' := by
  induction l with
  | nil => simp at hf
  | cons x xs ih =>
    rw [List.map_cons] at hnd
    obtain ⟨hnotmem, hnd'⟩ := List.nodup_cons.mp hnd
    rcases hx : pred x with _ | _
    · rw [List.find?_cons_of_neg _ (by simp [hx])] at hf
      have hpmem : p ∈ xs := List.mem_of_find?_eq_some hf
      have hxk : key x ≠ key p' := by
        rw [hk]
        intro hcontra
        exact hnotmem (hcontra ▸ List.mem_map_of_mem key hpmem)
      rw [List.map_cons, if_neg (by simp [hxk])]
      rw [List.find?_cons_of_neg _ (by simp [hx])]
      exact ih hnd' hf
    · rw [List.find?_cons_of_pos _ hx] at hf
      have hpx : x = p := by injection hf
      subst hpx
      rw [List.map_cons, if_pos (by simp [hk])]
      exact List.find?_cons_of_pos _ hp'

/-- `find?` over a list extended with one fresh matching row, when no
existing row matches the predicate. -/
lemma find?_append_fresh (pred : α → Bool) (l : List α) (p : α)
    (hl : ∀ x ∈ l, pred x = false) (hp : pred p = true) :
    (l ++ [p]).find? pred = some p := by
  induction l with
  | nil =>
    rw [List.nil_append]
    exact List.find?_cons_of_pos _ hp
  | cons x xs ih =>
    rw [List.cons_append, List.find?_cons_of_neg _ (by simp [hl x (by simp)])]
    exact ih (fun y hy => hl y (by simp [hy]))

end ListLemmas

/-- Booking.save never touches the identity, status, email, price or date
fields: it only ever rewrites total_price. -/
lemma Booking.save_frame (b : Booking) :
    (Booking.save b).booking_id = b.booking_id ∧
    (Booking.save b).status = b.status ∧
    (Booking.save b).user_email = b.user_email := by
  unfold Booking.save Booking.calculate_total_price
  dsimp only
  split
  · exact ⟨rfl, rfl, rfl⟩
  · split
    · exact ⟨rfl, rfl, rfl⟩
    · exact ⟨rfl, rfl, rfl⟩

/-- updatePayment leaves the Booking table untouched. -/
lemma DB.updatePayment_keeps_bookings (db : DB) (p : Payment) (bid : Nat) :
    (db.updatePayment p).findBookingById bid = db.findBookingById bid := rfl

/-- updateBooking leaves the Payment table untouched. -/
lemma DB.updateBooking_keeps_payments (db : DB) (b : Booking) (ref : String) :
    (db.updateBooking b).findPaymentByRef ref = db.findPaymentByRef ref := rfl

/-- Characterisation of mark_as_completed under row-key uniqueness: the
saved payment is the input with status completed, the (truthy) transaction
id and the completion timestamp; afterwards the payment is found under its
reference in that saved form, the booking is found with status confirmed
(saved through the Booking.save override), and both tables keep their keys. -/
lemma markAsCompleted_spec (db : DB) (p : Payment) (txid : Option String) (now : Int)
    (b : Booking)
    (hnd : (db.payments.map Payment.payment_id).Nodup)
    (hbnd : (db.bookings.map Booking.booking_id).Nodup)
    (hfind : db.findPaymentByRef p.reference = some p)
    (hb : db.findBookingById p.booking_id = some b) :
    (markAsCompleted db p txid now).1 =
      { p with status := PaymentStatus.completed,
               transaction_id := if optTruthyStr txid then txid else p.transaction_id,
               completed_at := some now } ∧
    (markAsCompleted db p txid now).2.findPaymentByRef p.reference =
      some (markAsCompleted db p txid now).1 ∧
    (markAsCompleted db p txid now).2.findBookingById p.booking_id =
      some (Booking.save { b with status := BookingStatus.confirmed }) ∧
    (markAsCompleted db p txid now).2.payments.map Payment.payment_id =
      db.payments.map Payment.payment_id ∧
    (markAsCompleted db p txid now).2.bookings.map Booking.booking_id =
      db.bookings.map Booking.booking_id := by
  have hbp : (b.booking_id == p.booking_id) = true := by
    have hb' : db.bookings.find? (fun x => x.booking_id == p.booking_id) = some b := hb
    have := List.find?_some hb'
    simpa using this
  have hmc : markAsCompleted db p txid now =
      ({ p with status := PaymentStatus.completed,
                transaction_id := if optTruthyStr txid then txid else p.transaction_id,
                completed_at := some now },
       (db.updatePayment
          { p with status := PaymentStatus.completed,
                   transaction_id := if optTruthyStr txid then txid else p.transaction_id,
                   completed_at := some now }).updateBooking
         (Booking.save { b with status := BookingStatus.confirmed })) := by
    unfold markAsCompleted
    dsimp only
    rw [DB.updatePayment_keeps_bookings, hb]
  refine ⟨by rw [hmc], ?_, ?_, ?_, ?_⟩
  · rw [hmc]
    dsimp only
    rw [DB.updateBooking_keeps_payments]
    exact find?_map_update Payment.payment_id _ db.payments p _ hnd hfind rfl (by simp)
  · rw [hmc]
    dsimp only
    refine find?_map_update Booking.booking_id _ db.bookings b _ hbnd hb
      (Booking.save_frame _).1 ?_
    have hk : (Booking.save { b with status := BookingStatus.confirmed }).booking_id =
        b.booking_id := (Booking.save_frame _).1
    simp only [hk]
    exact hbp
  · rw [hmc]
    exact map_key_update Payment.payment_id db.payments _
  · rw [hmc]
    exact map_key_update Booking.booking_id db.bookings _

/-- Characterisation of mark_as_failed under row-key uniqueness: the saved
payment is the input with status failed and the (truthy) error message;
afterwards the payment is found under its reference in that saved form, the
booking is found with status cancelled (saved through the Booking.save
override), and both tables keep their keys. -/
lemma markAsFailed_spec (db : DB) (p : Payment) (em : Option String) (b : Booking)
    (hnd : (db.payments.map Payment.payment_id).Nodup)
    (hbnd : (db.bookings.map Booking.booking_id).Nodup)
    (hfind : db.findPaymentByRef p.reference = some p)
    (hb : db.findBookingById p.booking_id = some b) :
    (markAsFailed db p em).1 =
      { p with status := PaymentStatus.failed,
               error_message := if optTruthyStr em then em else p.error_message } ∧
    (markAsFailed db p em).2.findPaymentByRef p.reference =
      some (markAsFailed db p em).1 ∧
    (markAsFailed db p em).2.findBookingById p.booking_id =
      some (Booking.save { b with status := BookingStatus.cancelled }) ∧
    (markAsFailed db p em).2.payments.map Payment.payment_id =
      db.payments.map Payment.payment_id ∧
    (markAsFailed db p em).2.bookings.map Booking.booking_id =
      db.bookings.map Booking.booking_id := by
  have hbp : (b.booking_id == p.booking_id) = true := by
    have hb' : db.bookings.find? (fun x => x.booking_id == p.booking_id) = some b := hb
    have := List.find?_some hb'
    simpa using this
  have hmc : markAsFailed db p em =
      ({ p with status := PaymentStatus.failed,
                error_message := if optTruthyStr em then em else p.error_message },
       (db.updatePayment
          { p with status := PaymentStatus.failed,
                   error_message := if optTruthyStr em then em else p.error_message }).updateBooking
         (Booking.save { b with status := BookingStatus.cancelled })) := by
    unfold markAsFailed
    dsimp only
    rw [DB.updatePayment_keeps_bookings, hb]
  refine ⟨by rw [hmc], ?_, ?_, ?_, ?_⟩
  · rw [hmc]
    dsimp only
    rw [DB.updateBooking_keeps_payments]
    exact find?_map_update Payment.payment_id _ db.payments p _ hnd hfind rfl (by simp)
  · rw [hmc]
    dsimp only
    refine find?_map_update Booking.booking_id _ db.bookings b _ hbnd hb
      (Booking.save_frame _).1 ?_
    have hk : (Booking.save { b with status := BookingStatus.cancelled }).booking_id =
        b.booking_id := (Booking.save_frame _).1
    simp only [hk]
    exact hbp
  · rw [hmc]
    exact map_key_update Payment.payment_id db.payments _
  · rw [hmc]
    exact map_key_update Booking.booking_id db.bookings _

/-- C1: when the booking's existing Payment is completed or processing, a
second initiate_payment call returns the conflict error and leaves the
state exactly as it was: no Payment row is created (the payment count for
the booking is that of the unchanged state, so it stays 1) and neither the
existing Payment nor the Booking is mutated. -/
theorem c1_initiate_conflict_rejected (db : DB) (userId : Nat) (req : InitiateRequest)
    (freshRef : String) (freshPid : Nat) (gw : GwCall InitEnvelope)
    (b : Booking) (p : Payment)
    (hb : db.findBooking req.booking_id userId = some b)
    (hp : db.paymentFor b.booking_id = some p)
    (hst : p.status = PaymentStatus.completed ∨ p.status = PaymentStatus.processing) :
    initiate_payment db userId req freshRef freshPid gw =
      Except.ok (InitResult.conflict400 "Payment already initiated or completed", db) := by
  unfold initiate_payment
  rw [hb]
  dsimp only
  rw [hp]
  dsimp only
  rw [if_pos hst]

/-- C1 witness: the conflict rejection at a concrete state with one
processing Payment. -/
theorem c1_initiate_conflict_rejected_witness :
    initiate_payment ⟨[wBooking], [wPayment]⟩ 10 wRequest "TRV-B" 101
        (GwCall.requestError "boom") =
      Except.ok (InitResult.conflict400 "Payment already initiated or completed",
        ⟨[wBooking], [wPayment]⟩) :=
  c1_initiate_conflict_rejected _ _ _ _ _ _ wBooking wPayment (by decide) (by decide)
    (Or.inr (by decide))

/-- C3: verify_payment on an already-completed Payment returns the success
tag with the current Payment representation, contacts no gateway
(gatewayCalled is false and the outcome does not depend on the gateway
oracle), enqueues nothing, and leaves the state unchanged; because the
state is unchanged, a second call is the same call and returns the same
data. -/
theorem c3_verify_idempotent_on_completed (db : DB) (reference : String) (now : Int)
    (p : Payment) (gw gw' : GwCall VerifyEnvelope)
    (href : reference ≠ "")
    (hp : db.findPaymentByRef reference = some p)
    (hst : p.status = PaymentStatus.completed) :
    verify_payment db reference now gw =
      ⟨⟨VerifyTag.success, 200, "Payment already verified and completed", some p⟩,
        db, [], false⟩ ∧
    verify_payment db reference now gw = verify_payment db reference now gw' := by
  have key : ∀ g : GwCall VerifyEnvelope, verify_payment db reference now g =
      ⟨⟨VerifyTag.success, 200, "Payment already verified and completed", some p⟩,
        db, [], false⟩ := by
    intro g
    unfold verify_payment
    rw [if_neg href, hp]
    dsimp only
    rw [if_pos hst]
  exact ⟨key gw, (key gw).trans (key gw').symm⟩

/-- C3 witness: idempotent re-verification of a concrete completed Payment,
with two different gateway oracles. -/
theorem c3_verify_idempotent_on_completed_witness :
    verify_payment ⟨[wBooking], [{ wPayment with status := PaymentStatus.completed }]⟩
        "TRV-A" 99 (GwCall.requestError "down") =
      ⟨⟨VerifyTag.success, 200, "Payment already verified and completed",
          some { wPayment with status := PaymentStatus.completed }⟩,
        ⟨[wBooking], [{ wPayment with status := PaymentStatus.completed }]⟩, [], false⟩ ∧
    verify_payment ⟨[wBooking], [{ wPayment with status := PaymentStatus.completed }]⟩
        "TRV-A" 99 (GwCall.requestError "down") =
      verify_payment ⟨[wBooking], [{ wPayment with status := PaymentStatus.completed }]⟩
        "TRV-A" 99 (GwCall.resp ⟨200, some "success", none, none⟩) :=
  c3_verify_idempotent_on_completed _ _ _ _ _ _ (by decide) (by decide) (by decide)

/-- C5: when the gateway verify call raises a transport error, raises any
other exception, or returns an envelope that is not an HTTP-200 success
envelope, verify_payment reports the error tag and mutates neither table,
so the call can be retried. -/
theorem c5_verify_error_no_mutation (db : DB) (reference : String) (now : Int)
    (p : Payment) (gw : GwCall VerifyEnvelope)
    (href : reference ≠ "")
    (hp : db.findPaymentByRef reference = some p)
    (hst : p.status ≠ PaymentStatus.completed)
    (herr : match gw with
            | GwCall.resp env => ¬(env.http_code = 200 ∧ env.status = some "success")
            | GwCall.requestError _ => True
            | GwCall.otherError _ => True) :
    (verify_payment db reference now gw).db = db ∧
    (verify_payment db reference now gw).result.tag = VerifyTag.error ∧
    (verify_payment db reference now gw).jobs = [] := by
  unfold verify_payment
  rw [if_neg href, hp]
  dsimp only
  rw [if_neg hst]
  cases gw with
  | requestError e => exact ⟨rfl, rfl, rfl⟩
  | otherError e => exact ⟨rfl, rfl, rfl⟩
  | resp env =>
    have h : ¬(env.http_code = 200 ∧ env.status = some "success") := herr
    dsimp only
    rw [if_neg h]
    exact ⟨rfl, rfl, rfl⟩

/-- C5 witness: a concrete non-success envelope leaves the concrete state
untouched and reports an error. -/
theorem c5_verify_error_no_mutation_witness :
    (verify_payment ⟨[wBooking], [wPayment]⟩ "TRV-A" 99
        (GwCall.resp ⟨502, some "error", some "gateway down", none⟩)).db =
      ⟨[wBooking], [wPayment]⟩ ∧
    (verify_payment ⟨[wBooking], [wPayment]⟩ "TRV-A" 99
        (GwCall.resp ⟨502, some "error", some "gateway down", none⟩)).result.tag =
      VerifyTag.error ∧
    (verify_payment ⟨[wBooking], [wPayment]⟩ "TRV-A" 99
        (GwCall.resp ⟨502, some "error", some "gateway down", none⟩)).jobs = [] :=
  c5_verify_error_no_mutation _ _ _ wPayment _ (by decide) (by decide) (by decide)
    (by decide)

/-- C6 counterexample: 'failed' is not absorbing.  At a concrete state
whose Payment is 'failed', a verify_payment call whose gateway envelope
reports transaction success transitions that Payment to 'completed' (and
its Booking to 'confirmed'), refuting the claim that no operation of the
workflow performs a further automatic transition from 'failed'. -/
theorem c6_counterexample :
    (⟨[wBooking], [{ wPayment with status := PaymentStatus.failed }]⟩ : DB).payments.map
        Payment.status = [PaymentStatus.failed] ∧
    ((verify_payment ⟨[wBooking], [{ wPayment with status := PaymentStatus.failed }]⟩
        "TRV-A" 99
        (GwCall.resp ⟨200, some "success", none,
          some ⟨some "success", some "CH-1", some "card"⟩⟩)).db.payments.map
        Payment.status) = [PaymentStatus.completed] := by
  decide

/-- C6 amended: only 'completed' is absorbing.  A Payment whose status is
'completed' undergoes no state change at all under verify_payment (the
claim's 'failed' and 'cancelled' cases are refuted by the counterexample:
verify_payment re-contacts the gateway for them and can transition them). -/
theorem c6_only_completed_absorbing (db : DB) (reference : String) (now : Int)
    (p : Payment) (gw : GwCall VerifyEnvelope)
    (href : reference ≠ "")
    (hp : db.findPaymentByRef reference = some p)
    (hst : p.status = PaymentStatus.completed) :
    (verify_payment db reference now gw).db = db := by
  unfold verify_payment
  rw [if_neg href, hp]
  dsimp only
  rw [if_pos hst]

/-- C6 witness: the amended absorbing property at a concrete completed
Payment, under a gateway oracle that would otherwise rewrite it. -/
theorem c6_only_completed_absorbing_witness :
    (verify_payment ⟨[wBooking], [{ wPayment with status := PaymentStatus.completed }]⟩
        "TRV-A" 99
        (GwCall.resp ⟨200, some "success", none,
          some ⟨some "failed", none, none⟩⟩)).db =
      ⟨[wBooking], [{ wPayment with status := PaymentStatus.completed }]⟩ :=
  c6_only_completed_absorbing _ _ _ { wPayment with status := PaymentStatus.completed } _
    (by decide) (by decide) (by decide)

/-- C7 counterexample: a booking with check_out > check_in whose
total_price was already set to 999 keeps 999 across save, although the
nightly price times the number of nights is 600, refuting the claim's
unconditional equation total_price = nightly_price * nights. -/
theorem c7_counterexample :
    (Booking.save ⟨1, 10, "u@x.com", 200, 0, 3, 2, some 999, BookingStatus.pending⟩).check_out -
      (Booking.save ⟨1, 10, "u@x.com", 200, 0, 3, 2, some 999, BookingStatus.pending⟩).check_in
        > 0 ∧
    (Booking.save ⟨1, 10, "u@x.com", 200, 0, 3, 2, some 999, BookingStatus.pending⟩).total_price ≠
      some ((Booking.save ⟨1, 10, "u@x.com", 200, 0, 3, 2, some 999, BookingStatus.pending⟩).listing_price *
        ((Booking.save ⟨1, 10, "u@x.com", 200, 0, 3, 2, some 999, BookingStatus.pending⟩).check_out -
         (Booking.save ⟨1, 10, "u@x.com", 200, 0, 3, 2, some 999, BookingStatus.pending⟩).check_in)) := by
  decide

/-- C7 amended: for a booking with check_out > check_in, save computes
total_price = nightly_price * nights exactly when total_price is unset or
zero at save time; when total_price is already a nonzero value, save
leaves the whole row unchanged (so the stored value is not recomputed and
need not equal nightly_price * nights). -/
theorem c7_total_price_on_save (b : Booking)
    (hdays : b.check_out - b.check_in > 0) :
    (optTruthyInt b.total_price = false →
      (Booking.save b).total_price =
        some (b.listing_price * (b.check_out - b.check_in))) ∧
    (optTruthyInt b.total_price = true → Booking.save b = b) := by
  constructor
  · intro h
    simp only [Booking.save, h, Bool.false_eq_true, if_false, Booking.calculate_total_price]
    rw [if_pos hdays]
  · intro h
    simp only [Booking.save, h, if_true]

/-- C7 witness: at a concrete 3-night booking at 200 per night with unset
total_price, save stores 600. -/
theorem c7_total_price_on_save_witness :
    (Booking.save ⟨1, 10, "u@x.com", 200, 0, 3, 2, none, BookingStatus.pending⟩).total_price =
      some 600 := by
  have h := (c7_total_price_on_save
    ⟨1, 10, "u@x.com", 200, 0, 3, 2, none, BookingStatus.pending⟩ (by decide)).1 (by decide)
  simpa using h

/-- C10: when the booking's existing Payment is pending, failed or
cancelled, initiate_payment passes the conflict check and attempts to
insert a second Payment row for the same booking; the OneToOneField
constraint makes the insert fail with an IntegrityError that no handler
catches, so the call ends in an unhandled database error rather than a
handled error response. -/
theorem c10_reinitiation_integrity_error (db : DB) (userId : Nat) (req : InitiateRequest)
    (freshRef : String) (freshPid : Nat) (gw : GwCall InitEnvelope)
    (b : Booking) (p : Payment)
    (hb : db.findBooking req.booking_id userId = some b)
    (hp : db.paymentFor b.booking_id = some p)
    (hst : p.status = PaymentStatus.pending ∨ p.status = PaymentStatus.failed ∨
           p.status = PaymentStatus.cancelled) :
    initiate_payment db userId req freshRef freshPid gw = Except.error "IntegrityError" := by
  have hmem : p ∈ db.payments := List.mem_of_find?_eq_some hp
  have hbid : p.booking_id = b.booking_id := by
    have := List.find?_some hp
    simpa using this
  have hnconf : ¬(p.status = PaymentStatus.completed ∨ p.status = PaymentStatus.processing) := by
    rcases hst with h | h | h <;> simp [h]
  unfold initiate_payment
  rw [hb]
  dsimp only
  rw [hp]
  dsimp only
  rw [if_neg hnconf]
  unfold initiateCore
  dsimp only
  rw [show db.createPayment (newPendingPayment b freshRef freshPid) =
        Except.error "IntegrityError" from ?_]
  unfold DB.createPayment
  rw [if_pos]
  exact List.any_eq_true.mpr ⟨p, hmem, by simp [newPendingPayment, hbid]⟩

/-- C10 witness: re-initiating at a concrete state whose Payment is
pending ends in the unhandled IntegrityError. -/
theorem c10_reinitiation_integrity_error_witness :
    initiate_payment ⟨[wBooking], [{ wPayment with status := PaymentStatus.pending }]⟩ 10
        wRequest "TRV-B" 101 (GwCall.requestError "boom") =
      Except.error "IntegrityError" :=
  c10_reinitiation_integrity_error _ _ _ _ _ _ wBooking
    { wPayment with status := PaymentStatus.pending } (by decide) (by decide)
    (Or.inl (by decide))

/-- C9: the notification task retries with exponential backoff: the n-th
retry (counting from 0) is scheduled with a countdown of 60 * 2 ^ n
seconds, at most max_retries = 3 retries follow the first attempt, and
when every attempt fails the task ends in the worker-side 'exhausted'
outcome (MaxRetriesExceededError inside the Celery worker) after exactly
the countdowns 60, 120, 240 — nothing is returned to the end user, whose
request completed at enqueue time. -/
theorem c9_notifier_retry_policy (fails : Nat → Bool) :
    (send_booking_confirmation_email fails).2.length ≤ max_retries ∧
    (send_booking_confirmation_email fails).2 =
      (List.range (send_booking_confirmation_email fails).2.length).map
        (fun n => 60 * 2 ^ n) ∧
    ((∀ n, fails n = true) →
      (send_booking_confirmation_email fails).1 = TaskOutcome.exhausted ∧
      (send_booking_confirmation_email fails).2 = [60, 120, 240]) := by
  have key : send_booking_confirmation_email fails =
      if fails 0 then
        if fails 1 then
          if fails 2 then
            if fails 3 then (TaskOutcome.exhausted, [60, 120, 240])
            else (TaskOutcome.success, [60, 120, 240])
          else (TaskOutcome.success, [60, 120])
        else (TaskOutcome.success, [60])
      else (TaskOutcome.success, []) := by
    rcases h0 : fails 0 <;> rcases h1 : fails 1 <;> rcases h2 : fails 2 <;>
      rcases h3 : fails 3 <;>
        simp [send_booking_confirmation_email, runEmailTask, max_retries,
          retry_countdown, h0, h1, h2, h3]
  refine ⟨?_, ?_, ?_⟩
  · rw [key]
    rcases h0 : fails 0 <;> rcases h1 : fails 1 <;> rcases h2 : fails 2 <;>
      rcases h3 : fails 3 <;> simp [h0, h1, h2, h3, max_retries]
  · rw [key]
    rcases h0 : fails 0 <;> rcases h1 : fails 1 <;> rcases h2 : fails 2 <;>
      rcases h3 : fails 3 <;> simp [h0, h1, h2, h3] <;> decide
  · intro hall
    rw [key]
    simp [hall 0, hall 1, hall 2, hall 3]

/-- C9 witness: when delivery always fails, the task is exhausted after
the three exponential countdowns. -/
theorem c9_notifier_retry_policy_witness :
    (send_booking_confirmation_email (fun _ => true)).1 = TaskOutcome.exhausted ∧
    (send_booking_confirmation_email (fun _ => true)).2 = [60, 120, 240] :=
  (c9_notifier_retry_policy (fun _ => true)).2.2 (fun _ => rfl)

/-- C2: when a not-yet-completed Payment is verified and the gateway
returns an HTTP-200 success envelope whose transaction status is
'success' (with a nonempty transaction reference), the Payment ends
completed with the external transaction id and the completion timestamp
recorded, its Booking ends confirmed, exactly one confirmation job is
enqueued, and the response carries the success tag. -/
theorem c2_verify_gateway_success (db : DB) (reference : String) (now : Int)
    (env : VerifyEnvelope) (p : Payment) (b : Booking) (t : String)
    (hnd : (db.payments.map Payment.payment_id).Nodup)
    (hbnd : (db.bookings.map Booking.booking_id).Nodup)
    (href : reference ≠ "")
    (hp : db.findPaymentByRef reference = some p)
    (hst : p.status ≠ PaymentStatus.completed)
    (hcode : env.http_code = 200)
    (henv : env.status = some "success")
    (htx : (env.data.getD ⟨none, none, none⟩).status = some "success")
    (htid : (env.data.getD ⟨none, none, none⟩).reference = some t)
    (ht : t ≠ "")
    (hb : db.findBookingById p.booking_id = some b) :
    ∃ p' b',
      (verify_payment db reference now (GwCall.resp env)).db.findPaymentByRef reference
          = some p' ∧
      p'.status = PaymentStatus.completed ∧
      p'.transaction_id = some t ∧
      p'.completed_at = some now ∧
      (verify_payment db reference now (GwCall.resp env)).db.findBookingById p.booking_id
          = some b' ∧
      b'.status = BookingStatus.confirmed ∧
      (verify_payment db reference now (GwCall.resp env)).jobs.length = 1 ∧
      (verify_payment db reference now (GwCall.resp env)).result.tag = VerifyTag.success := by
  have hpref : p.reference = reference := by
    have hp' : db.payments.find? (fun q => q.reference == reference) = some p := hp
    have := List.find?_some hp'
    simpa using this
  obtain ⟨h1, h2, h3, h4, h5⟩ :=
    markAsCompleted_spec db p (some t) now b hnd hbnd (by rw [hpref]; exact hp) hb
  have hv : verify_payment db reference now (GwCall.resp env) =
      ⟨⟨VerifyTag.success, 200, "Payment verified and completed successfully",
          some { (markAsCompleted db p (some t) now).1 with
                 payment_method := some ((env.data.getD ⟨none, none, none⟩).method.getD ""),
                 raw_response := some (RawResponse.verif env) }⟩,
        ((markAsCompleted db p (some t) now).2.updatePayment
          { (markAsCompleted db p (some t) now).1 with
            payment_method := some ((env.data.getD ⟨none, none, none⟩).method.getD ""),
            raw_response := some (RawResponse.verif env) }),
        (match ((markAsCompleted db p (some t) now).2.updatePayment
            { (markAsCompleted db p (some t) now).1 with
              payment_method := some ((env.data.getD ⟨none, none, none⟩).method.getD ""),
              raw_response := some (RawResponse.verif env) }).findBookingById p.booking_id with
          | some bb => [⟨bb.booking_id, bb.user_email⟩]
          | none => []),
        true⟩ := by
    unfold verify_payment
    rw [if_neg href, hp]
    dsimp only
    rw [if_neg hst]
    rw [if_pos ⟨hcode, henv⟩]
    rw [if_pos htx, htid]
  have hfound2 :
      (((markAsCompleted db p (some t) now).2.updatePayment
          { (markAsCompleted db p (some t) now).1 with
            payment_method := some ((env.data.getD ⟨none, none, none⟩).method.getD ""),
            raw_response := some (RawResponse.verif env) }).findPaymentByRef reference)
        = some { (markAsCompleted db p (some t) now).1 with
                 payment_method := some ((env.data.getD ⟨none, none, none⟩).method.getD ""),
                 raw_response := some (RawResponse.verif env) } := by
    have hnd2 : ((markAsCompleted db p (some t) now).2.payments.map Payment.payment_id).Nodup := by
      rw [h4]; exact hnd
    have hfind2 : (markAsCompleted db p (some t) now).2.findPaymentByRef reference =
        some (markAsCompleted db p (some t) now).1 := by
      rw [← hpref]; exact h2
    refine find?_map_update Payment.payment_id _ _ _ _ hnd2 hfind2 rfl ?_
    simp [h1, hpref]
  have hbook2 :
      (((markAsCompleted db p (some t) now).2.updatePayment
          { (markAsCompleted db p (some t) now).1 with
            payment_method := some ((env.data.getD ⟨none, none, none⟩).method.getD ""),
            raw_response := some (RawResponse.verif env) }).findBookingById p.booking_id)
        = some (Booking.save { b with status := BookingStatus.confirmed }) := by
    rw [DB.updatePayment_keeps_bookings]
    exact h3
  refine ⟨{ (markAsCompleted db p (some t) now).1 with
            payment_method := some ((env.data.getD ⟨none, none, none⟩).method.getD ""),
            raw_response := some (RawResponse.verif env) },
          Booking.save { b with status := BookingStatus.confirmed },
          ?_, ?_, ?_, ?_, ?_, ?_, ?_, ?_⟩
  · rw [hv]
    exact hfound2
  · simp [h1]
  · simp [h1, optTruthyStr, ht]
  · simp [h1]
  · rw [hv]
    exact hbook2
  · exact (Booking.save_frame _).2.1
  · rw [hv]
    simp only [hbook2]
    rfl
  · rw [hv]

/-- C2 witness: verifying a concrete processing Payment against a success
envelope completes it, confirms its booking, and enqueues one job. -/
theorem c2_verify_gateway_success_witness :
    ∃ p' b',
      (verify_payment ⟨[wBooking], [wPayment]⟩ "TRV-A" 99
          (GwCall.resp ⟨200, some "success", none,
            some ⟨some "success", some "CH-1", some "card"⟩⟩)).db.findPaymentByRef "TRV-A"
          = some p' ∧
      p'.status = PaymentStatus.completed ∧
      p'.transaction_id = some "CH-1" ∧
      p'.completed_at = some 99 ∧
      (verify_payment ⟨[wBooking], [wPayment]⟩ "TRV-A" 99
          (GwCall.resp ⟨200, some "success", none,
            some ⟨some "success", some "CH-1", some "card"⟩⟩)).db.findBookingById
            wPayment.booking_id = some b' ∧
      b'.status = BookingStatus.confirmed ∧
      (verify_payment ⟨[wBooking], [wPayment]⟩ "TRV-A" 99
          (GwCall.resp ⟨200, some "success", none,
            some ⟨some "success", some "CH-1", some "card"⟩⟩)).jobs.length = 1 ∧
      (verify_payment ⟨[wBooking], [wPayment]⟩ "TRV-A" 99
          (GwCall.resp ⟨200, some "success", none,
            some ⟨some "success", some "CH-1", some "card"⟩⟩)).result.tag =
        VerifyTag.success :=
  c2_verify_gateway_success _ _ _ _ wPayment wBooking "CH-1" (by decide) (by decide)
    (by decide) (by decide) (by decide) rfl rfl rfl rfl (by decide) (by decide)

/-- C8: when a not-yet-completed Payment is verified and the success
envelope carries a transaction status that is neither 'success' nor
'failed', verify_payment sets the Payment's status to processing (storing
the raw response) and the Booking table — hence every field of the
associated Booking — is left completely unchanged; no job is enqueued. -/
theorem c8_verify_pending_frame (db : DB) (reference : String) (now : Int)
    (env : VerifyEnvelope) (p : Payment)
    (hnd : (db.payments.map Payment.payment_id).Nodup)
    (href : reference ≠ "")
    (hp : db.findPaymentByRef reference = some p)
    (hst : p.status ≠ PaymentStatus.completed)
    (hcode : env.http_code = 200)
    (henv : env.status = some "success")
    (hts : (env.data.getD ⟨none, none, none⟩).status ≠ some "success")
    (htf : (env.data.getD ⟨none, none, none⟩).status ≠ some "failed") :
    (verify_payment db reference now (GwCall.resp env)).db.bookings = db.bookings ∧
    (verify_payment db reference now (GwCall.resp env)).db.findPaymentByRef reference =
      some { p with status := PaymentStatus.processing,
                    raw_response := some (RawResponse.verif env) } ∧
    (verify_payment db reference now (GwCall.resp env)).jobs = [] := by
  have hpref : p.reference = reference := by
    have hp' : db.payments.find? (fun q => q.reference == reference) = some p := hp
    have := List.find?_some hp'
    simpa using this
  have hv : verify_payment db reference now (GwCall.resp env) =
      ⟨⟨VerifyTag.processing, 200, "Payment is still being processed",
          some { p with status := PaymentStatus.processing,
                        raw_response := some (RawResponse.verif env) }⟩,
        db.updatePayment { p with status := PaymentStatus.processing,
                                  raw_response := some (RawResponse.verif env) },
        [], true⟩ := by
    unfold verify_payment
    rw [if_neg href, hp]
    dsimp only
    rw [if_neg hst]
    rw [if_pos ⟨hcode, henv⟩]
    rw [if_neg hts, if_neg htf]
  refine ⟨by rw [hv]; rfl, ?_, by rw [hv]⟩
  rw [hv]
  exact find?_map_update Payment.payment_id _ db.payments p _ hnd hp rfl (by simp [hpref])

/-- C8 witness: a concrete pending-at-gateway envelope moves the Payment
to processing and leaves the Booking row untouched. -/
theorem c8_verify_pending_frame_witness :
    (verify_payment ⟨[wBooking], [wPayment]⟩ "TRV-A" 99
        (GwCall.resp ⟨200, some "success", none,
          some ⟨some "pending", none, none⟩⟩)).db.bookings = [wBooking] ∧
    (verify_payment ⟨[wBooking], [wPayment]⟩ "TRV-A" 99
        (GwCall.resp ⟨200, some "success", none,
          some ⟨some "pending", none, none⟩⟩)).db.findPaymentByRef "TRV-A" =
      some { wPayment with status := PaymentStatus.processing,
                           raw_response := some (RawResponse.verif
                             ⟨200, some "success", none,
                              some ⟨some "pending", none, none⟩⟩) } ∧
    (verify_payment ⟨[wBooking], [wPayment]⟩ "TRV-A" 99
        (GwCall.resp ⟨200, some "success", none,
          some ⟨some "pending", none, none⟩⟩)).jobs = [] :=
  c8_verify_pending_frame _ _ _ _ wPayment (by decide) (by decide) (by decide)
    (by decide) rfl rfl (by decide) (by decide)

/-- C4: when the gateway rejects an initiation (non-200 status code or a
payload whose status is not 'success') with a nonempty message, the newly
created Payment ends failed with that message persisted, the Booking ends
cancelled in the same returned state, and the gateway error is returned to
the caller. -/
theorem c4_initiate_gateway_reject (db : DB) (userId : Nat) (req : InitiateRequest)
    (freshRef : String) (freshPid : Nat) (env : InitEnvelope) (b : Booking) (m : String)
    (hnd : (db.payments.map Payment.payment_id).Nodup)
    (hbnd : (db.bookings.map Booking.booking_id).Nodup)
    (hb : db.findBooking req.booking_id userId = some b)
    (hbid : db.findBookingById b.booking_id = some b)
    (hnopay : db.paymentFor b.booking_id = none)
    (hfreshref : ∀ q ∈ db.payments, q.reference ≠ freshRef)
    (hfreshpid : ∀ q ∈ db.payments, q.payment_id ≠ freshPid)
    (henv : ¬(env.http_code = 200 ∧ env.status = some "success"))
    (hmsg : env.message = some m)
    (hm : m ≠ "") :
    ∃ db', initiate_payment db userId req freshRef freshPid (GwCall.resp env) =
        Except.ok (InitResult.gatewayError400 m, db') ∧
      (∃ p', db'.findPaymentByRef freshRef = some p' ∧
        p'.status = PaymentStatus.failed ∧
        p'.error_message = some m ∧
        p'.booking_id = b.booking_id) ∧
      (∃ b', db'.findBookingById b.booking_id = some b' ∧
        b'.status = BookingStatus.cancelled) := by
  have hfreshb : ∀ q ∈ db.payments, q.booking_id ≠ b.booking_id := by
    intro q hq
    have := List.find?_eq_none.mp hnopay q hq
    simpa using this
  have hcreate : db.createPayment (newPendingPayment b freshRef freshPid) =
      Except.ok ⟨db.bookings, db.payments ++ [newPendingPayment b freshRef freshPid]⟩ := by
    unfold DB.createPayment
    have hany : db.payments.any
        (fun q => q.booking_id == (newPendingPayment b freshRef freshPid).booking_id ||
                  q.reference == (newPendingPayment b freshRef freshPid).reference ||
                  q.payment_id == (newPendingPayment b freshRef freshPid).payment_id) = false := by
      rw [List.any_eq_false]
      intro q hq
      simp [newPendingPayment, hfreshb q hq, hfreshref q hq, hfreshpid q hq]
    rw [hany]
    rfl
  have hv : initiate_payment db userId req freshRef freshPid (GwCall.resp env) =
      Except.ok (InitResult.gatewayError400 m,
        (markAsFailed ⟨db.bookings, db.payments ++ [newPendingPayment b freshRef freshPid]⟩
          (newPendingPayment b freshRef freshPid) (some m)).2) := by
    unfold initiate_payment
    rw [hb]
    dsimp only
    rw [hnopay]
    dsimp only
    unfold initiateCore
    dsimp only
    rw [hcreate]
    dsimp only
    rw [if_neg henv, hmsg]
    rfl
  have hfind1 :
      (⟨db.bookings, db.payments ++ [newPendingPayment b freshRef freshPid]⟩ :
          DB).findPaymentByRef (newPendingPayment b freshRef freshPid).reference =
        some (newPendingPayment b freshRef freshPid) := by
    unfold DB.findPaymentByRef
    refine find?_append_fresh _ db.payments _ ?_ (by simp)
    intro q hq
    simp [newPendingPayment, hfreshref q hq]
  have hnd1 : ((⟨db.bookings, db.payments ++ [newPendingPayment b freshRef freshPid]⟩ :
      DB).payments.map Payment.payment_id).Nodup := by
    dsimp only
    rw [List.map_append]
    rw [List.nodup_append]
    refine ⟨hnd, List.nodup_singleton _, ?_⟩
    intro x hx
    obtain ⟨q, hq, hqx⟩ := List.mem_map.mp hx
    simp only [newPendingPayment, List.map_cons, List.map_nil, List.mem_singleton]
    intro hcontra
    exact hfreshpid q hq (by rw [← hqx] at hcontra; exact hcontra.symm ▸ rfl)
  have hb1 : (⟨db.bookings, db.payments ++ [newPendingPayment b freshRef freshPid]⟩ :
      DB).findBookingById (newPendingPayment b freshRef freshPid).booking_id = some b := by
    show db.findBookingById b.booking_id = some b
    exact hbid
  obtain ⟨h1, h2, h3, _, _⟩ := markAsFailed_spec
    ⟨db.bookings, db.payments ++ [newPendingPayment b freshRef freshPid]⟩
    (newPendingPayment b freshRef freshPid) (some m) b hnd1 hbnd hfind1 hb1
  refine ⟨_, hv,
    ⟨(markAsFailed ⟨db.bookings, db.payments ++ [newPendingPayment b freshRef freshPid]⟩
        (newPendingPayment b freshRef freshPid) (some m)).1, ?_, ?_, ?_, ?_⟩,
    ⟨Booking.save { b with status := BookingStatus.cancelled }, h3, ?_⟩⟩
  · exact h2
  · rw [h1]
  · rw [h1]
    simp [optTruthyStr, hm, newPendingPayment]
  · rw [h1]
    rfl
  · exact (Booking.save_frame _).2.1

/-- C4 witness: a concrete gateway rejection marks the fresh Payment failed
with the gateway's message and cancels the booking, in the returned state. -/
theorem c4_initiate_gateway_reject_witness :
    ∃ db', initiate_payment ⟨[wBooking], []⟩ 10 wRequest "TRV-B" 101
        (GwCall.resp ⟨400, some "failed", some "Insufficient funds", none⟩) =
        Except.ok (InitResult.gatewayError400 "Insufficient funds", db') ∧
      (∃ p', db'.findPaymentByRef "TRV-B" = some p' ∧
        p'.status = PaymentStatus.failed ∧
        p'.error_message = some "Insufficient funds" ∧
        p'.booking_id = wBooking.booking_id) ∧
      (∃ b', db'.findBookingById wBooking.booking_id = some b' ∧
        b'.status = BookingStatus.cancelled) :=
  c4_initiate_gateway_reject _ _ _ _ _ _ wBooking "Insufficient funds" (by decide) (by decide)
    (by decide) (by decide) (by decide) (by decide) (by decide) (by decide) rfl (by decide)

end AlxTravel
